import Mathlib

/-!
# Verification of the retry / circuit-breaker login flow

Shallow embedding of the `examples_postRequestPayload.js` script of the
`graphanaK6` repository: the circuit-breaker state machine
(`circuitBreaker`, `recordCircuitBreakerResult`), the retrying login
executor (`performLogin`), and the credential-pool generator
(`generateUserPool`).  Timestamps are naturals counting milliseconds
(the script uses `Date.now()`); response latency is a natural number of
milliseconds; external randomness (`randomString`, `uuidv4`) and the
HTTP transport are passed in as oracle functions.
-/

/-- `CIRCUIT_MAX_FAILURES` from the script: maximum consecutive failures
before the circuit opens. -/
def CIRCUIT_MAX_FAILURES : Nat := 5

/-- `CIRCUIT_RESET_TIME` from the script: seconds before attempting to
close the circuit again. -/
def CIRCUIT_RESET_TIME : Nat := 30

/-- The mutable `circuitState` object: `failures` and `openSince`
(`null` is modelled by `none`; the timestamp is `Date.now()` in ms). -/
structure CircuitState where
  failures : Nat
  openSince : Option Nat
  deriving Repr, DecidableEq

/-- The initial value of `circuitState` in the script:
`{ failures: 0, openSince: null }`. -/
def initialCircuitState : CircuitState := { failures := 0, openSince := none }

/-- `circuitBreaker(operationName)` from the script, with `Date.now()`
passed in as `now`.  Returns the boolean the function returns together
with the state after its side effects.  The script compares
`(now - openSince) / 1000 < CIRCUIT_RESET_TIME` with real division; over
timestamps with `now ≥ openSince` this is equivalent to the millisecond
comparison `now - openSince < CIRCUIT_RESET_TIME * 1000` used here
(truncated `Nat` subtraction gives `0` when `now < openSince`, and a
negative JS elapsed time is likewise `< CIRCUIT_RESET_TIME`). -/
def circuitBreaker (now : Nat) (s : CircuitState) : Bool × CircuitState :=
  match s.openSince with
  | some t =>
    if now - t < CIRCUIT_RESET_TIME * 1000 then
      (false, s)
    else
      (true, { failures := 0, openSince := none })
  | none => (true, s)

/-- `recordCircuitBreakerResult(success)` from the script, with
`Date.now()` passed in as `now`. -/
def recordCircuitBreakerResult (now : Nat) (success : Bool) (s : CircuitState) :
    CircuitState :=
  if success then
    { s with failures := 0 }
  else
    let f := s.failures + 1
    if f ≥ CIRCUIT_MAX_FAILURES ∧ s.openSince = none then
      { failures := f, openSince := some now }
    else
      { s with failures := f }

/-- A JSON value sitting in the `token` field of a parsed body: either a
string or some other (non-string) JSON value.  The script's check is
`body.token && typeof body.token === 'string' && body.token.length > 10`;
any non-string value fails the `typeof` test (falsy non-strings also fail
the truthiness test), and the empty string is falsy but its length is
`0 ≤ 10` anyway, so the check reduces to: a string of length `> 10`. -/
inductive JsonVal where
  | str (s : String)
  | nonStr
  deriving Repr, DecidableEq

/-- The parsed JSON body of a login response; only the `token` field is
inspected by the script (`none` = field absent / `undefined`). -/
structure LoginBody where
  token : Option JsonVal
  deriving Repr, DecidableEq

/-- One HTTP response as the script observes it: `status`,
the result of `r.json()` (`none` = the body is not valid JSON, so
`r.json()` throws), `timings.duration` in ms, and the `Content-Type`
header (`none` = header absent). -/
structure Response where
  status : Nat
  body : Option LoginBody
  duration : Nat
  contentType : Option String
  deriving Repr, DecidableEq

/-- `pat.isPrefixOf`-based substring containment on character lists,
modelling JavaScript's `String.prototype.includes`. -/
def listContainsSub (pat : List Char) : List Char → Bool
  | [] => pat.isEmpty
  | c :: rest => pat.isPrefixOf (c :: rest) || listContainsSub pat rest

/-- JavaScript `s.includes(pat)`. -/
def strIncludes (s pat : String) : Bool := listContainsSub pat.data s.data

/-- The `'status is 200'` check. -/
def statusIs200 (r : Response) : Bool := r.status == 200

/-- `body.token && typeof body.token === 'string' && body.token.length > 10`
from the script: a string token of length `> 10` (a falsy token, a
non-string token and the empty string all fail it). -/
def tokenLenOk : Option JsonVal → Bool
  | some (JsonVal.str s) => decide (s.length > 10)
  | _ => false

/-- The `'has valid token'` check: `r.json()` must succeed and yield a
body whose `token` is a truthy string of length `> 10`. -/
def hasValidToken (r : Response) : Bool :=
  match r.body with
  | none => false
  | some b => tokenLenOk b.token

/-- The `'response time acceptable'` check: `r.timings.duration < 2000`. -/
def responseTimeAcceptable (r : Response) : Bool := r.duration < 2000

/-- The `'content-type is JSON'` check:
`r.headers['Content-Type'] && r.headers['Content-Type'].includes('application/json')`. -/
def contentTypeIsJson (r : Response) : Bool :=
  match r.contentType with
  | none => false
  | some ct => strIncludes ct "application/json"

/-- `check(response, {...})` in the script: true iff ALL four rubric
checks pass. -/
def checkResult (r : Response) : Bool :=
  statusIs200 r && hasValidToken r && responseTimeAcceptable r && contentTypeIsJson r

/-- The configuration fields of `CONFIG` that drive the retry loop. -/
structure Config where
  maxRetries : Nat
  retryInterval : Nat
  deriving Repr, DecidableEq

/-- The observable outcome of one `performLogin` invocation: the returned
value (`none` = `null`), the number of `http.post` calls issued, the
backoff sleeps performed (in seconds, in order), the final
`circuitState`, and whether the modelling fuel ran out (i.e. the JS
`while` loop would still be running). -/
structure LoginRun where
  result : Option LoginBody
  requests : Nat
  sleeps : List Nat
  state : CircuitState
  diverged : Bool
  deriving Repr, DecidableEq

/-- The `while (retries <= CONFIG.MAX_RETRIES)` loop of `performLogin`.
`responses k` is the response to the `k`-th `http.post` call (0-indexed);
`now` stands for `Date.now()` during the call.  Each iteration:
issue the request; if all rubric checks pass, record a success on the
gate, then try to re-parse the body — on success break with the parsed
body, on a parse error neither break nor increment `retries` (the JS
`catch` branch); otherwise compute `backoffTime = RETRY_INTERVAL * 2^retries`,
sleep it only when `retries < MAX_RETRIES`, and increment `retries`.
After the loop, `retries > MAX_RETRIES` means exhaustion: record a single
failure on the gate and return `null`; otherwise return `result`.
The JS loop has no fuel; `fuel` only bounds the model, and running out
is reported through `diverged`. -/
def loginLoop (cfg : Config) (responses : Nat → Response) (now : Nat) :
    Nat → Nat → Nat → Option LoginBody → CircuitState → List Nat → LoginRun
  | 0, _, requests, result, st, sleeps =>
    { result := result, requests := requests, sleeps := sleeps, state := st,
      diverged := true }
  | fuel + 1, retries, requests, result, st, sleeps =>
    if retries ≤ cfg.maxRetries then
      let r := responses requests
      if checkResult r then
        let st' := recordCircuitBreakerResult now true st
        match r.body with
        | some b =>
          { result := some b, requests := requests + 1, sleeps := sleeps,
            state := st', diverged := false }
        | none =>
          loginLoop cfg responses now fuel retries (requests + 1) result st' sleeps
      else
        let sleeps' :=
          if retries < cfg.maxRetries then
            sleeps ++ [cfg.retryInterval * 2 ^ retries]
          else sleeps
        loginLoop cfg responses now fuel (retries + 1) (requests + 1) result st sleeps'
    else
      { result := none, requests := requests, sleeps := sleeps,
        state := recordCircuitBreakerResult now false st, diverged := false }

/-- `performLogin(user)` from the script: consult the gate first and
return `null` with no network call if it denies; otherwise run the retry
loop.  `cfg.maxRetries + 2` fuel steps are enough for the loop's at most
`cfg.maxRetries + 1` iterations plus the final guard test (proved below:
`diverged` is always `false`). -/
def performLogin (cfg : Config) (responses : Nat → Response) (now : Nat)
    (st : CircuitState) : LoginRun :=
  let gate := circuitBreaker now st
  if gate.1 then
    loginLoop cfg responses now (cfg.maxRetries + 2) 0 0 none gate.2 []
  else
    { result := none, requests := 0, sleeps := [], state := gate.2, diverged := false }

/-- One `Credential` generated by `generateUserPool`. -/
structure Credential where
  email : String
  password : String
  userId : String
  deriving Repr, DecidableEq

/-- `generateUserPool(poolSize)` from the script.  `rand8 i` / `rand12 i`
stand for the `randomString(8)` / `randomString(12)` values drawn in
iteration `i`, and `uuid i` for that iteration's `uuidv4()`. -/
def generateUserPool (poolSize : Nat) (rand8 rand12 uuid : Nat → String) :
    List Credential :=
  (List.range poolSize).map fun i =>
    { email := "user" ++ toString i ++ "_" ++ rand8 i ++ "@example.com"
      password := "Secure" ++ rand12 i ++ "!" ++ toString i
      userId := uuid i }

/-- One gate operation, for reasoning about reachable circuit states:
an `allow()` consultation or a `recordResult` at a given `Date.now()`. -/
inductive GateEvent where
  | allow (now : Nat)
  | record (now : Nat) (success : Bool)
  deriving Repr, DecidableEq

/-- Apply one gate operation to the circuit state. -/
def applyGateEvent (s : CircuitState) : GateEvent → CircuitState
  | GateEvent.allow now => (circuitBreaker now s).2
  | GateEvent.record now b => recordCircuitBreakerResult now b s

/-- The circuit state after running a sequence of gate operations from
the initial state. -/
def runGateEvents (es : List GateEvent) : CircuitState :=
  es.foldl applyGateEvent initialCircuitState

/-- Whether a gate event is a recorded success. -/
def isSuccessEvent : GateEvent → Bool
  | GateEvent.record _ true => true
  | _ => false

/-- The spec's phrase, read over an operation history: at some point the
failure counter reached `CIRCUIT_MAX_FAILURES`, and no success has been
recorded since (between reaching the threshold and now). -/
def reachedThresholdNoSuccessSince (es : List GateEvent) : Bool :=
  (List.range (es.length + 1)).any fun i =>
    decide ((runGateEvents (es.take i)).failures ≥ CIRCUIT_MAX_FAILURES) &&
      (es.drop i).all fun e => !isSuccessEvent e

/-- `recordCircuitBreakerResult` specialised to one recorded failure at
time `t` (the shape the retry loop's caller would produce on a failed
invocation). -/
def stepFail (s : CircuitState) (t : Nat) : CircuitState :=
  recordCircuitBreakerResult t false s

/-- A sequence of consecutive recorded failures at the given times. -/
def recordFailures (s : CircuitState) (ts : List Nat) : CircuitState :=
  ts.foldl stepFail s

/-- The script's default configuration: `MAX_RETRIES = 3`,
`RETRY_INTERVAL = 2`. -/
def cfg3 : Config := { maxRetries := 3, retryInterval := 2 }

/-- A login endpoint response with HTTP status 500 (body not JSON). -/
def fail500 : Response :=
  { status := 500, body := none, duration := 100, contentType := some "text/html" }

/-- An HTTP 200 JSON response whose token is `"short"` (length 5 ≤ 10). -/
def shortTokenResponse : Response :=
  { status := 200, body := some { token := some (JsonVal.str "short") },
    duration := 100, contentType := some "application/json" }

/-- Gate history: five consecutive recorded failures, then one success. -/
def fiveFailsThenSuccess : List GateEvent :=
  [GateEvent.record 0 false, GateEvent.record 0 false, GateEvent.record 0 false,
   GateEvent.record 0 false, GateEvent.record 0 false, GateEvent.record 7 true]

theorem checkResult_true_body_isSome (r : Response) (h : checkResult r = true) :
    r.body.isSome := by
  unfold checkResult hasValidToken at h
  cases hb : r.body with
  | none => rw [hb] at h; simp at h
  | some b => simp [hb]

theorem loginLoop_requests_le (cfg : Config) (responses : Nat → Response) (now : Nat) :
    ∀ fuel retries requests result st sleeps,
      cfg.maxRetries + 1 - retries + 1 ≤ fuel →
      (loginLoop cfg responses now fuel retries requests result st sleeps).diverged = false ∧
      (loginLoop cfg responses now fuel retries requests result st sleeps).requests ≤
        requests + (cfg.maxRetries + 1 - retries) := by
  intro fuel
  induction fuel with
  | zero => intro retries requests result st sleeps hfuel; omega
  | succ fuel ih =>
    intro retries requests result st sleeps hfuel
    by_cases hret : retries ≤ cfg.maxRetries
    · by_cases hchk : checkResult (responses requests) = true
      · cases hb : (responses requests).body with
        | none =>
          have := checkResult_true_body_isSome _ hchk
          rw [hb] at this; simp at this
        | some b =>
          simp only [loginLoop, if_pos hret, hchk, if_true, hb]
          exact ⟨trivial, by omega⟩
      · have hchk' : checkResult (responses requests) = false := by
          simpa using hchk
        have hfuel' : cfg.maxRetries + 1 - (retries + 1) + 1 ≤ fuel := by omega
        have hrec := ih (retries + 1) (requests + 1) result st
          (if retries < cfg.maxRetries then sleeps ++ [cfg.retryInterval * 2 ^ retries] else sleeps)
          hfuel'
        simp only [loginLoop, if_pos hret, hchk', Bool.false_eq_true, if_false]
        exact ⟨hrec.1, by omega⟩
    · simp only [loginLoop, if_neg hret]
      exact ⟨trivial, by omega⟩

theorem loginLoop_allFail (cfg : Config) (responses : Nat → Response) (now : Nat)
    (hall : ∀ k, checkResult (responses k) = false) :
    ∀ fuel retries requests result st sleeps,
      retries ≤ cfg.maxRetries + 1 →
      cfg.maxRetries + 2 - retries ≤ fuel →
      (loginLoop cfg responses now fuel retries requests result st sleeps).result = none ∧
      (loginLoop cfg responses now fuel retries requests result st sleeps).requests =
        requests + (cfg.maxRetries + 1 - retries) ∧
      (loginLoop cfg responses now fuel retries requests result st sleeps).state =
        recordCircuitBreakerResult now false st := by
  intro fuel
  induction fuel with
  | zero => intro retries requests result st sleeps hret hfuel; omega
  | succ fuel ih =>
    intro retries requests result st sleeps hret hfuel
    by_cases hr : retries ≤ cfg.maxRetries
    · have hrec := ih (retries + 1) (requests + 1) result st
        (if retries < cfg.maxRetries then sleeps ++ [cfg.retryInterval * 2 ^ retries] else sleeps)
        (by omega) (by omega)
      simp only [loginLoop, if_pos hr, hall requests, Bool.false_eq_true, if_false]
      exact ⟨hrec.1, by omega, hrec.2.2⟩
    · simp only [loginLoop, if_neg hr]
      exact ⟨trivial, by omega, trivial⟩

theorem loginLoop_sleeps (cfg : Config) (responses : Nat → Response) (now : Nat) :
    ∀ fuel retries requests result st sleeps,
      sleeps = (List.range (min retries cfg.maxRetries)).map
        (fun i => cfg.retryInterval * 2 ^ i) →
      ∃ m, m ≤ cfg.maxRetries ∧
        (loginLoop cfg responses now fuel retries requests result st sleeps).sleeps =
          (List.range m).map (fun i => cfg.retryInterval * 2 ^ i) := by
  intro fuel
  induction fuel with
  | zero =>
    intro retries requests result st sleeps hs
    exact ⟨min retries cfg.maxRetries, Nat.min_le_right _ _, hs⟩
  | succ fuel ih =>
    intro retries requests result st sleeps hs
    by_cases hr : retries ≤ cfg.maxRetries
    · by_cases hchk : checkResult (responses requests) = true
      · cases hb : (responses requests).body with
        | none =>
          have := checkResult_true_body_isSome _ hchk
          rw [hb] at this; simp at this
        | some b =>
          refine ⟨min retries cfg.maxRetries, Nat.min_le_right _ _, ?_⟩
          simp only [loginLoop, if_pos hr, hchk, if_true, hb]
          exact hs
      · have hchk' : checkResult (responses requests) = false := by simpa using hchk
        simp only [loginLoop, if_pos hr, hchk', Bool.false_eq_true, if_false]
        apply ih
        by_cases hlt : retries < cfg.maxRetries
        · have h1 : min retries cfg.maxRetries = retries := by omega
          have h2 : min (retries + 1) cfg.maxRetries = retries + 1 := by omega
          rw [if_pos hlt, hs, h1, h2, List.range_succ, List.map_append]
          simp
        · have hEq : retries = cfg.maxRetries := by omega
          have h1 : min retries cfg.maxRetries = cfg.maxRetries := by omega
          have h2 : min (retries + 1) cfg.maxRetries = cfg.maxRetries := by omega
          rw [if_neg hlt, hs, h1, h2]
    · refine ⟨min retries cfg.maxRetries, Nat.min_le_right _ _, ?_⟩
      simp only [loginLoop, if_neg hr]
      exact hs

theorem circuitBreaker_false_of_open (s : CircuitState) (t now : Nat)
    (hopen : s.openSince = some t) (hlt : now - t < CIRCUIT_RESET_TIME * 1000) :
    (circuitBreaker now s).1 = false := by
  unfold circuitBreaker
  rw [hopen]
  simp [hlt]

theorem circuitBreaker_state_of_denied (s : CircuitState) (t now : Nat)
    (hopen : s.openSince = some t) (hlt : now - t < CIRCUIT_RESET_TIME * 1000) :
    circuitBreaker now s = (false, s) := by
  unfold circuitBreaker
  rw [hopen]
  simp [hlt]

theorem stepFail_openSince_some (s : CircuitState) (t u : Nat)
    (h : s.openSince = some u) : (stepFail s t).openSince = some u := by
  unfold stepFail recordCircuitBreakerResult
  simp [h]

theorem recordFailures_openSince_some (ts : List Nat) :
    ∀ (s : CircuitState) (u : Nat), s.openSince = some u →
      (recordFailures s ts).openSince = some u := by
  induction ts with
  | nil => intro s u h; exact h
  | cons t rest ih =>
    intro s u h
    exact ih _ u (stepFail_openSince_some s t u h)

theorem stepFail_opens (s : CircuitState) (t : Nat)
    (hf : CIRCUIT_MAX_FAILURES ≤ s.failures + 1) (hn : s.openSince = none) :
    stepFail s t = { failures := s.failures + 1, openSince := some t } := by
  unfold stepFail recordCircuitBreakerResult
  simp [hn, hf]

theorem stepFail_stays_closed (s : CircuitState) (t : Nat)
    (hf : s.failures + 1 < CIRCUIT_MAX_FAILURES) (hn : s.openSince = none) :
    stepFail s t = { failures := s.failures + 1, openSince := none } := by
  have hnot : ¬ CIRCUIT_MAX_FAILURES ≤ s.failures + 1 := by omega
  unfold stepFail recordCircuitBreakerResult
  simp [hn, hnot]

theorem recordFailures_opens_once (ts : List Nat) :
    ∀ s : CircuitState, s.openSince = none → 1 ≤ ts.length →
      CIRCUIT_MAX_FAILURES ≤ s.failures + ts.length →
      ∃ k tk, k < ts.length ∧ ts.get? k = some tk ∧
        (∀ j, j ≤ k → (recordFailures s (ts.take j)).openSince = none) ∧
        (∀ j, k < j → j ≤ ts.length →
          (recordFailures s (ts.take j)).openSince = some tk) := by
  induction ts with
  | nil => intro s _ h1 _; simp at h1
  | cons t rest ih =>
    intro s hn hlen hth
    by_cases hf : CIRCUIT_MAX_FAILURES ≤ s.failures + 1
    · refine ⟨0, t, by simp, rfl, ?_, ?_⟩
      · intro j hj
        interval_cases j
        simpa [recordFailures] using hn
      · intro j hj0 hjlen
        obtain ⟨j', rfl⟩ : ∃ j', j = j' + 1 := ⟨j - 1, by omega⟩
        have htake : (t :: rest).take (j' + 1) = t :: rest.take j' := rfl
        rw [htake]
        have hstep : recordFailures s (t :: rest.take j') =
            recordFailures (stepFail s t) (rest.take j') := rfl
        rw [hstep]
        apply recordFailures_openSince_some
        rw [stepFail_opens s t hf hn]
    · have hstay := stepFail_stays_closed s t (by omega) hn
      have hrest : 1 ≤ rest.length := by
        by_contra hc
        have : rest.length = 0 := by omega
        simp [this] at hth
        omega
      have hth' : CIRCUIT_MAX_FAILURES ≤ (stepFail s t).failures + rest.length := by
        rw [hstay]
        simp at hth ⊢
        omega
      obtain ⟨k', tk, hk'len, hget, hnone, hsome⟩ :=
        ih (stepFail s t) (by rw [hstay]) hrest hth'
      refine ⟨k' + 1, tk, by simpa using hk'len, by simpa using hget, ?_, ?_⟩
      · intro j hj
        match j with
        | 0 => simpa [recordFailures] using hn
        | j' + 1 =>
          have : recordFailures s ((t :: rest).take (j' + 1)) =
              recordFailures (stepFail s t) (rest.take j') := rfl
          rw [this]
          exact hnone j' (by omega)
      · intro j hj0 hjlen
        obtain ⟨j', rfl⟩ : ∃ j', j = j' + 1 := ⟨j - 1, by omega⟩
        have : recordFailures s ((t :: rest).take (j' + 1)) =
            recordFailures (stepFail s t) (rest.take j') := rfl
        rw [this]
        exact hsome j' (by omega) (by simpa using hjlen)

theorem performLogin_eq (cfg : Config) (responses : Nat → Response) (now : Nat)
    (st : CircuitState) :
    performLogin cfg responses now st =
      if (circuitBreaker now st).1 = true then
        loginLoop cfg responses now (cfg.maxRetries + 2) 0 0 none (circuitBreaker now st).2 []
      else
        { result := none, requests := 0, sleeps := [], state := (circuitBreaker now st).2,
          diverged := false } := rfl

theorem applyGateEvent_closed_lt (s : CircuitState) (e : GateEvent)
    (h : s.openSince = none → s.failures < CIRCUIT_MAX_FAILURES) :
    (applyGateEvent s e).openSince = none →
      (applyGateEvent s e).failures < CIRCUIT_MAX_FAILURES := by
  cases e with
  | allow now =>
    simp only [applyGateEvent]
    cases ho : s.openSince with
    | none =>
      have hcb : circuitBreaker now s = (true, s) := by
        unfold circuitBreaker; rw [ho]
      rw [hcb]; intro _; exact h ho
    | some t =>
      by_cases ht : now - t < CIRCUIT_RESET_TIME * 1000
      · rw [circuitBreaker_state_of_denied s t now ho ht]
        intro hn
        rw [ho] at hn
        exact Option.noConfusion hn
      · have hcb : circuitBreaker now s = (true, { failures := 0, openSince := none }) := by
          unfold circuitBreaker; rw [ho]; simp [ht]
        rw [hcb]
        intro _
        show (0 : Nat) < CIRCUIT_MAX_FAILURES
        decide
  | record now b =>
    simp only [applyGateEvent]
    cases b with
    | true =>
      intro _
      show ({ s with failures := 0 } : CircuitState).failures < CIRCUIT_MAX_FAILURES
      show (0 : Nat) < CIRCUIT_MAX_FAILURES
      decide
    | false =>
      show (stepFail s now).openSince = none → (stepFail s now).failures < CIRCUIT_MAX_FAILURES
      by_cases hg : CIRCUIT_MAX_FAILURES ≤ s.failures + 1
      · by_cases ho : s.openSince = none
        · rw [stepFail_opens s now hg ho]
          intro hn
          exact Option.noConfusion hn
        · obtain ⟨u, hu⟩ := Option.ne_none_iff_exists'.mp ho
          intro hn
          rw [stepFail_openSince_some s now u hu] at hn
          exact Option.noConfusion hn
      · by_cases ho : s.openSince = none
        · rw [stepFail_stays_closed s now (by omega) ho]
          intro _
          show s.failures + 1 < CIRCUIT_MAX_FAILURES
          omega
        · obtain ⟨u, hu⟩ := Option.ne_none_iff_exists'.mp ho
          intro hn
          rw [stepFail_openSince_some s now u hu] at hn
          exact Option.noConfusion hn

theorem foldl_gate_closed_lt (es : List GateEvent) :
    ∀ s : CircuitState, (s.openSince = none → s.failures < CIRCUIT_MAX_FAILURES) →
      ((es.foldl applyGateEvent s).openSince = none →
        (es.foldl applyGateEvent s).failures < CIRCUIT_MAX_FAILURES) := by
  induction es with
  | nil => intro s h; exact h
  | cons e rest ih =>
    intro s h
    exact ih (applyGateEvent s e) (applyGateEvent_closed_lt s e h)

theorem email_data_ne {c d : Char} (h : c ≠ d) (x y : String) :
    ('u' :: 's' :: 'e' :: 'r' :: c :: '_' :: (x.data ++ "@example.com".data) : List Char) ≠
      'u' :: 's' :: 'e' :: 'r' :: d :: '_' :: (y.data ++ "@example.com".data) := by
  intro he
  simp only [List.cons.injEq] at he
  exact h he.2.2.2.2.1

/-- Shared helper: a `performLogin` run in which the gate allows the call and
every response fails the rubric returns `null` after `maxRetries + 1`
requests, recording exactly one failure on the gate. -/
theorem performLogin_allFail_spec (cfg : Config) (responses : Nat → Response) (now : Nat)
    (st : CircuitState) (hallow : (circuitBreaker now st).1 = true)
    (hall : ∀ k, checkResult (responses k) = false) :
    (performLogin cfg responses now st).result = none ∧
    (performLogin cfg responses now st).requests = cfg.maxRetries + 1 ∧
    (performLogin cfg responses now st).state =
      recordCircuitBreakerResult now false (circuitBreaker now st).2 := by
  rw [performLogin_eq, hallow, if_pos rfl]
  have h := loginLoop_allFail cfg responses now hall (cfg.maxRetries + 2) 0 0 none
    (circuitBreaker now st).2 [] (by omega) (by omega)
  exact ⟨h.1, by omega, h.2.2⟩

/-- C1 counterexample: the claim says every failed attempt records a
failure on the gate (incrementing `consecutiveFailures`).  With the
default configuration (`maxRetries = 3`) and an endpoint that always
answers HTTP 500, `performLogin` makes 4 failed attempts and returns
`null`, yet the final gate state holds `failures = 1`, not 4: the retry
loop's failure branch never calls `recordCircuitBreakerResult`; only the
single post-exhaustion call does. -/
theorem C1_counterexample :
    (performLogin cfg3 (fun _ => fail500) 1000 initialCircuitState).requests = 4 ∧
    (performLogin cfg3 (fun _ => fail500) 1000 initialCircuitState).result = none ∧
    (performLogin cfg3 (fun _ => fail500) 1000 initialCircuitState).state.failures = 1 ∧
    (performLogin cfg3 (fun _ => fail500) 1000 initialCircuitState).state.failures ≠ 4 := by
  decide

/-- C1 amended: failed attempts do NOT individually record failures on
the gate; after exhausting `maxRetries + 1` total attempts without a
pass, exactly one failure is recorded on the gate (the final state is
one `recordCircuitBreakerResult false` applied to the post-gate state)
and `null` is returned. -/
theorem C1_theorem (cfg : Config) (responses : Nat → Response) (now : Nat)
    (st : CircuitState) (hallow : (circuitBreaker now st).1 = true)
    (hall : ∀ k, checkResult (responses k) = false) :
    (performLogin cfg responses now st).result = none ∧
    (performLogin cfg responses now st).requests = cfg.maxRetries + 1 ∧
    (performLogin cfg responses now st).state =
      recordCircuitBreakerResult now false (circuitBreaker now st).2 :=
  performLogin_allFail_spec cfg responses now st hallow hall

/-- C1 witness: the amended claim at the default configuration, an
always-HTTP-500 endpoint and the initial circuit state. -/
theorem C1_witness :
    (performLogin cfg3 (fun _ => fail500) 1000 initialCircuitState).result = none ∧
    (performLogin cfg3 (fun _ => fail500) 1000 initialCircuitState).requests =
      cfg3.maxRetries + 1 ∧
    (performLogin cfg3 (fun _ => fail500) 1000 initialCircuitState).state =
      recordCircuitBreakerResult 1000 false (circuitBreaker 1000 initialCircuitState).2 :=
  C1_theorem cfg3 (fun _ => fail500) 1000 initialCircuitState (by decide) (fun _ => show checkResult fail500 = false by decide)

/-- C2 counterexample: the claim says a recorded success on an OPEN gate
closes it immediately so that a subsequent `allow()` returns true.  On
the state `{failures := 5, openSince := some 0}`, `recordResult(true)`
resets `failures` to 0 but leaves `openSince = some 0`, and an `allow()`
1 second later (well inside the 30 s cool-down) returns `false`. -/
theorem C2_counterexample :
    (recordCircuitBreakerResult 1000 true { failures := 5, openSince := some 0 }).failures
      = 0 ∧
    (recordCircuitBreakerResult 1000 true
      { failures := 5, openSince := some 0 }).openSince = some 0 ∧
    (circuitBreaker 2000 (recordCircuitBreakerResult 1000 true
      { failures := 5, openSince := some 0 })).1 = false := by
  decide

/-- C2 amended: recording a success resets `consecutiveFailures` to 0
unconditionally, but it does NOT clear `openedAt`; if the gate was OPEN,
a subsequent `allow()` before the reset timeout still returns false (the
gate only closes through the timeout path inside `allow()`). -/
theorem C2_theorem (s : CircuitState) (now : Nat) :
    (recordCircuitBreakerResult now true s).failures = 0 ∧
    (recordCircuitBreakerResult now true s).openSince = s.openSince ∧
    (∀ t now', s.openSince = some t → now' - t < CIRCUIT_RESET_TIME * 1000 →
      (circuitBreaker now' (recordCircuitBreakerResult now true s)).1 = false) := by
  have hrec : recordCircuitBreakerResult now true s = { s with failures := 0 } := rfl
  refine ⟨by rw [hrec], by rw [hrec], ?_⟩
  intro t now' ht hlt
  exact circuitBreaker_false_of_open _ t now' (by rw [hrec]; exact ht) hlt

/-- C2 witness: the amended claim at the concrete open state
`{failures := 5, openSince := some 0}`. -/
theorem C2_witness :
    (recordCircuitBreakerResult 1000 true { failures := 5, openSince := some 0 }).failures
      = 0 ∧
    (circuitBreaker 2000 (recordCircuitBreakerResult 1000 true
      { failures := 5, openSince := some 0 })).1 = false :=
  ⟨(C2_theorem { failures := 5, openSince := some 0 } 1000).1,
   (C2_theorem { failures := 5, openSince := some 0 } 1000).2.2 0 2000 rfl (by decide)⟩

/-- C3 counterexample: the claimed invariant is an `iff` between
`openedAt` being set and the failure counter having reached
`FAILURE_THRESHOLD` with no intervening success.  After five failures
followed by one success, `openSince` is still `some 0` although a
success intervened after the threshold was reached, so the
history predicate is false: the `iff` fails. -/
theorem C3_counterexample :
    (runGateEvents fiveFailsThenSuccess).openSince = some 0 ∧
    reachedThresholdNoSuccessSince fiveFailsThenSuccess = false := by
  decide

/-- C3 amended: only one direction of the invariant holds in every
reachable state: whenever `openedAt` is unset, `consecutiveFailures` is
strictly below `FAILURE_THRESHOLD` (equivalently, a counter at or above
the threshold forces the gate open).  The converse direction fails
because a success resets the counter without clearing `openedAt`. -/
theorem C3_theorem (es : List GateEvent)
    (h : (runGateEvents es).openSince = none) :
    (runGateEvents es).failures < CIRCUIT_MAX_FAILURES := by
  exact foldl_gate_closed_lt es initialCircuitState (fun _ => show (0:Nat) < CIRCUIT_MAX_FAILURES by decide) h

/-- C3 witness: the amended invariant evaluated on the one-failure
history. -/
theorem C3_witness :
    (runGateEvents [GateEvent.record 5 false]).failures < CIRCUIT_MAX_FAILURES :=
  C3_theorem [GateEvent.record 5 false] (by decide)

/-- C4: starting from a closed gate, any sequence of at least
`FAILURE_THRESHOLD` consecutive recorded failures opens the gate exactly
once — there is a single index `k` at which `openedAt` goes from unset
to the timestamp of failure `k`, and it keeps exactly that timestamp for
the rest of the sequence (the not-already-open guard forbids
reassignment) — and every `allow()` called before
`RESET_TIMEOUT_SECONDS` have elapsed since `openedAt` returns false. -/
theorem C4_theorem (s : CircuitState) (ts : List Nat)
    (hclosed : s.openSince = none) (hlen : CIRCUIT_MAX_FAILURES ≤ ts.length) :
    (∃ k tk, k < ts.length ∧ ts.get? k = some tk ∧
      (∀ j, j ≤ k → (recordFailures s (ts.take j)).openSince = none) ∧
      (∀ j, k < j → j ≤ ts.length →
        (recordFailures s (ts.take j)).openSince = some tk)) ∧
    (∀ now tk, (recordFailures s ts).openSince = some tk →
      now - tk < CIRCUIT_RESET_TIME * 1000 →
      (circuitBreaker now (recordFailures s ts)).1 = false) := by
  have h1 : 1 ≤ ts.length :=
    le_trans (by decide : 1 ≤ CIRCUIT_MAX_FAILURES) hlen
  have hth : CIRCUIT_MAX_FAILURES ≤ s.failures + ts.length :=
    le_trans hlen (Nat.le_add_left _ _)
  refine ⟨recordFailures_opens_once ts s hclosed h1 hth, ?_⟩
  intro now tk hopen hlt
  exact circuitBreaker_false_of_open _ tk now hopen hlt

/-- C4 witness: the claim at the initial circuit state and the concrete
failure times `[10, 20, 30, 40, 50]`. -/
theorem C4_witness :
    (∃ k tk, k < ([10, 20, 30, 40, 50] : List Nat).length ∧
      ([10, 20, 30, 40, 50] : List Nat).get? k = some tk ∧
      (∀ j, j ≤ k →
        (recordFailures initialCircuitState (([10, 20, 30, 40, 50] : List Nat).take j)).openSince
          = none) ∧
      (∀ j, k < j → j ≤ ([10, 20, 30, 40, 50] : List Nat).length →
        (recordFailures initialCircuitState (([10, 20, 30, 40, 50] : List Nat).take j)).openSince
          = some tk)) ∧
    (∀ now tk,
      (recordFailures initialCircuitState [10, 20, 30, 40, 50]).openSince = some tk →
      now - tk < CIRCUIT_RESET_TIME * 1000 →
      (circuitBreaker now (recordFailures initialCircuitState [10, 20, 30, 40, 50])).1
        = false) :=
  C4_theorem initialCircuitState [10, 20, 30, 40, 50] rfl (by decide)

/-- C5: in every `performLogin` run, the `i`-th backoff sleep (0-indexed,
i.e. the delay between attempt `i` and attempt `i + 1`) is exactly
`retryIntervalSeconds * 2 ^ i` seconds, and at most `maxRetries` sleeps
occur — no sleep follows the final attempt, because the loop only sleeps
when `retries < maxRetries`. -/
theorem C5_theorem (cfg : Config) (responses : Nat → Response) (now : Nat)
    (st : CircuitState) :
    (∀ i, ∀ h : i < (performLogin cfg responses now st).sleeps.length,
      (performLogin cfg responses now st).sleeps.get ⟨i, h⟩ =
        cfg.retryInterval * 2 ^ i) ∧
    (performLogin cfg responses now st).sleeps.length ≤ cfg.maxRetries := by
  by_cases hg : (circuitBreaker now st).1 = true
  case neg =>
    rw [performLogin_eq, if_neg hg]
    refine ⟨?_, by simp⟩
    intro i h
    simp at h
  case pos =>
    rw [performLogin_eq, if_pos hg]
    obtain ⟨m, hm, heq⟩ := loginLoop_sleeps cfg responses now (cfg.maxRetries + 2) 0 0 none
      (circuitBreaker now st).2 [] (by simp)
    rw [heq]
    constructor
    · intro i h
      simp only [List.get_eq_getElem, List.getElem_map, List.getElem_range]
    · simp only [List.length_map, List.length_range]
      exact hm

/-- C5 witness: in the default-configuration all-fail run the second
sleep is `2 * 2 ^ 1 = 4` seconds and there are at most 3 sleeps. -/
theorem C5_witness :
    (performLogin cfg3 (fun _ => fail500) 1000 initialCircuitState).sleeps.get
      ⟨1, by decide⟩ = cfg3.retryInterval * 2 ^ 1 ∧
    (performLogin cfg3 (fun _ => fail500) 1000 initialCircuitState).sleeps.length ≤
      cfg3.maxRetries :=
  ⟨(C5_theorem cfg3 (fun _ => fail500) 1000 initialCircuitState).1 1 (by decide),
   (C5_theorem cfg3 (fun _ => fail500) 1000 initialCircuitState).2⟩

/-- C6: with `maxRetries = 3` (the default configuration) and a login
endpoint whose every response has HTTP status 500 — so every rubric
check sequence fails — `performLogin` performs exactly 4 HTTP attempts
(initial plus 3 retries) and returns `null`. -/
theorem C6_theorem (responses : Nat → Response)
    (h500 : ∀ k, (responses k).status = 500) :
    (performLogin cfg3 responses 1000 initialCircuitState).requests = 4 ∧
    (performLogin cfg3 responses 1000 initialCircuitState).result = none := by
  have hall : ∀ k, checkResult (responses k) = false := by
    intro k
    unfold checkResult statusIs200
    rw [h500 k]
    simp
  have h := performLogin_allFail_spec cfg3 responses 1000 initialCircuitState rfl hall
  exact ⟨by rw [h.2.1]; decide, h.1⟩

/-- C7: whenever the gate is OPEN and the cool-down has not elapsed
(`allow()` is false), `performLogin` returns `null` immediately: zero
HTTP requests, zero sleeps, and the circuit state is left untouched — a
deliberate skip, with no retry consumed. -/
theorem C7_theorem (cfg : Config) (responses : Nat → Response) (st : CircuitState)
    (t now : Nat) (hopen : st.openSince = some t)
    (hlt : now - t < CIRCUIT_RESET_TIME * 1000) :
    performLogin cfg responses now st =
      { result := none, requests := 0, sleeps := [], state := st, diverged := false } := by
  rw [performLogin_eq, circuitBreaker_state_of_denied st t now hopen hlt]
  simp

/-- C7 witness: an open gate (`openSince = some 0`) consulted 1 second
later. -/
theorem C7_witness :
    performLogin cfg3 (fun _ => fail500) 1000 { failures := 5, openSince := some 0 } =
      { result := none, requests := 0, sleeps := [],
        state := { failures := 5, openSince := some 0 }, diverged := false } :=
  C7_theorem cfg3 (fun _ => fail500) { failures := 5, openSince := some 0 } 0 1000 rfl
    (by decide)

/-- C6 witness: the concrete always-500 endpoint. -/
theorem C6_witness :
    (performLogin cfg3 (fun _ => fail500) 1000 initialCircuitState).requests = 4 ∧
    (performLogin cfg3 (fun _ => fail500) 1000 initialCircuitState).result = none :=
  C6_theorem (fun _ => fail500) (fun _ => rfl)

/-- The status rubric check holds exactly on HTTP 200 responses. -/
theorem statusIs200_iff (r : Response) : statusIs200 r = true ↔ r.status = 200 := by
  unfold statusIs200
  simp

theorem responseTimeAcceptable_iff (r : Response) :
    responseTimeAcceptable r = true ↔ r.duration < 2000 := by
  unfold responseTimeAcceptable
  simp

theorem hasValidToken_iff (r : Response) :
    hasValidToken r = true ↔
      ∃ b sv, r.body = some b ∧ b.token = some (JsonVal.str sv) ∧ 10 < sv.length := by
  unfold hasValidToken
  cases hb : r.body with
  | none => simp
  | some b =>
    cases htok : b.token with
    | none => simp [tokenLenOk, htok]
    | some v =>
      cases v with
      | str sv => simp [tokenLenOk, htok]
      | nonStr => simp [tokenLenOk, htok]

theorem contentTypeIsJson_iff (r : Response) :
    contentTypeIsJson r = true ↔
      ∃ ct, r.contentType = some ct ∧ strIncludes ct "application/json" = true := by
  unfold contentTypeIsJson
  cases hct : r.contentType with
  | none => simp
  | some ct =>
    constructor
    · intro h
      exact ⟨ct, rfl, h⟩
    · rintro ⟨ct1, hct1, hinc⟩
      obtain rfl : ct = ct1 := Option.some.inj hct1
      exact hinc

/-- C8: an attempt passes if and only if ALL rubric checks pass — HTTP
status is 200, the body parses as JSON with a string `token` of length
greater than 10, latency is under the 2000 ms ceiling, and the
`Content-Type` header contains `application/json`.  In particular the
HTTP 200 response with token `"short"` fails the valid-token check and
is treated as a failed attempt: a run fed only that response exhausts
all 4 attempts and returns `null`. -/
theorem C8_theorem :
    (∀ r : Response, checkResult r = true ↔
      (r.status = 200 ∧
       (∃ b sv, r.body = some b ∧ b.token = some (JsonVal.str sv) ∧ 10 < sv.length) ∧
       r.duration < 2000 ∧
       (∃ ct, r.contentType = some ct ∧ strIncludes ct "application/json" = true))) ∧
    checkResult shortTokenResponse = false ∧
    shortTokenResponse.status = 200 ∧
    (performLogin cfg3 (fun _ => shortTokenResponse) 1000 initialCircuitState).result
      = none ∧
    (performLogin cfg3 (fun _ => shortTokenResponse) 1000 initialCircuitState).requests
      = 4 := by
  refine ⟨?_, by decide, by decide, by decide, by decide⟩
  intro r
  have hsplit : checkResult r = true ↔
      ((statusIs200 r = true ∧ hasValidToken r = true) ∧
        responseTimeAcceptable r = true) ∧ contentTypeIsJson r = true := by
    unfold checkResult
    simp only [Bool.and_eq_true]
  rw [hsplit]
  constructor
  · rintro ⟨⟨⟨h1, h2⟩, h3⟩, h4⟩
    exact ⟨(statusIs200_iff r).mp h1, (hasValidToken_iff r).mp h2,
      (responseTimeAcceptable_iff r).mp h3, (contentTypeIsJson_iff r).mp h4⟩
  · rintro ⟨h1, h2, h3, h4⟩
    exact ⟨⟨⟨(statusIs200_iff r).mpr h1, (hasValidToken_iff r).mpr h2⟩,
      (responseTimeAcceptable_iff r).mpr h3⟩, (contentTypeIsJson_iff r).mpr h4⟩

/-- C9: for every `poolSize > 0`, `generateUserPool` returns an ordered
list of exactly `poolSize` credentials, each built from the generated
identifier (email), secret (password) and correlation id (userId) of its
index; with `poolSize = 5` the five generated emails are pairwise
distinct whatever the random-string oracle returns, because the email
embeds the (single-digit) index at a fixed position. -/
theorem C9_theorem (rand8 rand12 uuid : Nat → String) (n : Nat) (hn : 0 < n) :
    (generateUserPool n rand8 rand12 uuid).length = n ∧
    (∀ c ∈ generateUserPool n rand8 rand12 uuid, ∃ i, i < n ∧
      c = { email := "user" ++ toString i ++ "_" ++ rand8 i ++ "@example.com",
            password := "Secure" ++ rand12 i ++ "!" ++ toString i,
            userId := uuid i }) ∧
    ((generateUserPool 5 rand8 rand12 uuid).map Credential.email).Nodup := by
  refine ⟨by simp [generateUserPool], ?_, ?_⟩
  · intro c hc
    simp only [generateUserPool, List.mem_map, List.mem_range] at hc
    obtain ⟨i, hi, rfl⟩ := hc
    exact ⟨i, hi, rfl⟩
  · have hmap : ((generateUserPool 5 rand8 rand12 uuid).map Credential.email) =
        ["user" ++ toString (0:Nat) ++ "_" ++ rand8 0 ++ "@example.com",
         "user" ++ toString (1:Nat) ++ "_" ++ rand8 1 ++ "@example.com",
         "user" ++ toString (2:Nat) ++ "_" ++ rand8 2 ++ "@example.com",
         "user" ++ toString (3:Nat) ++ "_" ++ rand8 3 ++ "@example.com",
         "user" ++ toString (4:Nat) ++ "_" ++ rand8 4 ++ "@example.com"] := rfl
    rw [hmap]
    have h01 : ("user" ++ toString (0:Nat) ++ "_" ++ rand8 0 ++ "@example.com" : String) ≠
        "user" ++ toString (1:Nat) ++ "_" ++ rand8 1 ++ "@example.com" :=
      fun he => email_data_ne (show ('0':Char) ≠ '1' by decide) (rand8 0) (rand8 1)
        (congrArg String.data he)
    have h02 : ("user" ++ toString (0:Nat) ++ "_" ++ rand8 0 ++ "@example.com" : String) ≠
        "user" ++ toString (2:Nat) ++ "_" ++ rand8 2 ++ "@example.com" :=
      fun he => email_data_ne (show ('0':Char) ≠ '2' by decide) (rand8 0) (rand8 2)
        (congrArg String.data he)
    have h03 : ("user" ++ toString (0:Nat) ++ "_" ++ rand8 0 ++ "@example.com" : String) ≠
        "user" ++ toString (3:Nat) ++ "_" ++ rand8 3 ++ "@example.com" :=
      fun he => email_data_ne (show ('0':Char) ≠ '3' by decide) (rand8 0) (rand8 3)
        (congrArg String.data he)
    have h04 : ("user" ++ toString (0:Nat) ++ "_" ++ rand8 0 ++ "@example.com" : String) ≠
        "user" ++ toString (4:Nat) ++ "_" ++ rand8 4 ++ "@example.com" :=
      fun he => email_data_ne (show ('0':Char) ≠ '4' by decide) (rand8 0) (rand8 4)
        (congrArg String.data he)
    have h12 : ("user" ++ toString (1:Nat) ++ "_" ++ rand8 1 ++ "@example.com" : String) ≠
        "user" ++ toString (2:Nat) ++ "_" ++ rand8 2 ++ "@example.com" :=
      fun he => email_data_ne (show ('1':Char) ≠ '2' by decide) (rand8 1) (rand8 2)
        (congrArg String.data he)
    have h13 : ("user" ++ toString (1:Nat) ++ "_" ++ rand8 1 ++ "@example.com" : String) ≠
        "user" ++ toString (3:Nat) ++ "_" ++ rand8 3 ++ "@example.com" :=
      fun he => email_data_ne (show ('1':Char) ≠ '3' by decide) (rand8 1) (rand8 3)
        (congrArg String.data he)
    have h14 : ("user" ++ toString (1:Nat) ++ "_" ++ rand8 1 ++ "@example.com" : String) ≠
        "user" ++ toString (4:Nat) ++ "_" ++ rand8 4 ++ "@example.com" :=
      fun he => email_data_ne (show ('1':Char) ≠ '4' by decide) (rand8 1) (rand8 4)
        (congrArg String.data he)
    have h23 : ("user" ++ toString (2:Nat) ++ "_" ++ rand8 2 ++ "@example.com" : String) ≠
        "user" ++ toString (3:Nat) ++ "_" ++ rand8 3 ++ "@example.com" :=
      fun he => email_data_ne (show ('2':Char) ≠ '3' by decide) (rand8 2) (rand8 3)
        (congrArg String.data he)
    have h24 : ("user" ++ toString (2:Nat) ++ "_" ++ rand8 2 ++ "@example.com" : String) ≠
        "user" ++ toString (4:Nat) ++ "_" ++ rand8 4 ++ "@example.com" :=
      fun he => email_data_ne (show ('2':Char) ≠ '4' by decide) (rand8 2) (rand8 4)
        (congrArg String.data he)
    have h34 : ("user" ++ toString (3:Nat) ++ "_" ++ rand8 3 ++ "@example.com" : String) ≠
        "user" ++ toString (4:Nat) ++ "_" ++ rand8 4 ++ "@example.com" :=
      fun he => email_data_ne (show ('3':Char) ≠ '4' by decide) (rand8 3) (rand8 4)
        (congrArg String.data he)
    refine List.nodup_cons.mpr ⟨?_, List.nodup_cons.mpr ⟨?_,
      List.nodup_cons.mpr ⟨?_, List.nodup_cons.mpr ⟨?_, List.nodup_singleton _⟩⟩⟩⟩
    · simp only [List.mem_cons, List.not_mem_nil, or_false, not_or]
      exact ⟨h01, h02, h03, h04⟩
    · simp only [List.mem_cons, List.not_mem_nil, or_false, not_or]
      exact ⟨h12, h13, h14⟩
    · simp only [List.mem_cons, List.not_mem_nil, or_false, not_or]
      exact ⟨h23, h24⟩
    · simp only [List.mem_cons, List.not_mem_nil, or_false, not_or]
      exact h34

/-- C9 witness: a concrete oracle assigning the same random strings to
every index — the five emails are still distinct. -/
theorem C9_witness :
    (generateUserPool 5 (fun _ => "AAAAAAAA") (fun _ => "BBBBBBBBBBBB")
      (fun _ => "id")).length = 5 ∧
    (∀ c ∈ generateUserPool 5 (fun _ => "AAAAAAAA") (fun _ => "BBBBBBBBBBBB")
        (fun _ => "id"), ∃ i, i < 5 ∧
      c = { email := "user" ++ toString i ++ "_" ++ "AAAAAAAA" ++ "@example.com",
            password := "Secure" ++ "BBBBBBBBBBBB" ++ "!" ++ toString i,
            userId := "id" }) ∧
    ((generateUserPool 5 (fun _ => "AAAAAAAA") (fun _ => "BBBBBBBBBBBB")
      (fun _ => "id")).map Credential.email).Nodup :=
  C9_theorem (fun _ => "AAAAAAAA") (fun _ => "BBBBBBBBBBBB") (fun _ => "id") 5 (by decide)

/-- C10: for every configuration and every response sequence,
`performLogin` terminates and issues at most `maxRetries + 1` HTTP
requests.  Each loop iteration either breaks or increments the retry
counter: the branch in which all rubric checks pass but the body
re-parse throws (which would neither break nor increment) is
unreachable, because a passing rubric requires the body to have parsed
already.  `diverged = false` says the JS `while` loop exits within the
modelled fuel. -/
theorem C10_theorem (cfg : Config) (responses : Nat → Response) (now : Nat)
    (st : CircuitState) :
    (performLogin cfg responses now st).diverged = false ∧
    (performLogin cfg responses now st).requests ≤ cfg.maxRetries + 1 := by
  by_cases hg : (circuitBreaker now st).1 = true
  case neg =>
    rw [performLogin_eq, if_neg hg]
    exact ⟨rfl, Nat.zero_le _⟩
  case pos =>
    rw [performLogin_eq, if_pos hg]
    have h := loginLoop_requests_le cfg responses now (cfg.maxRetries + 2) 0 0 none
      (circuitBreaker now st).2 [] (by omega)
    exact ⟨h.1, by have := h.2; omega⟩
